import Mathlib

/-!
Verification of the LightStep recorder/exporter (`recorder.go`).

The recorder buffers completed trace spans, and `Flush` drains the buffer,
encodes the spans into thrift wire records, and ships them over an RPC to
a collector.  Times (`time.Time`, `time.Duration`) are modelled as `Int`
nanoseconds; Go strings are byte arrays, so byte-level operations (log
event truncation) act on `List UInt8` while string operations that only
compare text (tag keys, operation names) use `String`.  Go's integer
division truncates toward zero, hence `Int.tdiv`.
-/

namespace LightStep

/-- Go `strings.HasPrefix(s, prefix)`: whether `s` begins with `pre`,
stated on the underlying character sequences. -/
def goHasPre (s pre : String) : Bool := pre.data.isPrefixOf s.data

/-- `TraceGUIDKey` constant: tag key for GUID-joined traces. -/
def TraceGUIDKey : String := "join:trace_guid"

/-- `ParentSpanGUIDKey` constant: tag key recording the child/parent relation. -/
def ParentSpanGUIDKey : String := "parent_span_guid"

/-- Default of the `lightstep_max_log_message_len_bytes` flag. -/
def defaultMaxLogMessageLen : Nat := 1024

/-- `minReportingPeriod` constant: 500ms, in nanoseconds. -/
def minReportingPeriod : Int := 500 * 1000000

/-- `defaultMaxReportingPeriod` constant: 2500ms, in nanoseconds. -/
def defaultMaxReportingPeriod : Int := 2500 * 1000000

/-- The `ellipsis` constant `"…"` as UTF-8 bytes (3 bytes). -/
def ellipsis : List UInt8 := [0xE2, 0x80, 0xA6]

/-- Go `t.UnixNano() / 1000`: nanoseconds to microseconds, truncating toward zero. -/
def goMicros (nanos : Int) : Int := nanos.tdiv 1000

/-- A log entry of a raw span (`basictracer.LogData`): timestamp (UnixNano),
event text as Go bytes, and an optional payload.  The payload is carried as
the string the shared truncator produces for it (the `truncator` package is
outside this file's source); no claim constrains its content. -/
structure LogData where
  timestamp : Int
  event : List UInt8
  payload : Option String
deriving DecidableEq

/-- A raw span handed to the recorder (`basictracer.RawSpan`): identifiers,
operation name, start (UnixNano) and duration (nanoseconds), tags and logs.
Tag values appear after `fmt.Sprint`, i.e. as strings; the map is carried as
an association list in iteration order. -/
structure RawSpan where
  traceID : Nat
  spanID : Nat
  parentSpanID : Nat
  operation : String
  start : Int
  duration : Int
  tags : List (String × String)
  logs : List LogData
deriving DecidableEq

/-- Wire `lightstep_thrift.TraceJoinId`. -/
structure TraceJoinId where
  traceKey : String
  value : String
deriving DecidableEq

/-- Wire `lightstep_thrift.KeyValue`. -/
structure KeyValue where
  key : String
  value : String
deriving DecidableEq

/-- Wire `lightstep_thrift.LogRecord`. -/
structure LogRecord where
  timestampMicros : Int
  stableName : List UInt8
  payloadJson : Option String
deriving DecidableEq

/-- Wire `lightstep_thrift.SpanRecord`. -/
structure SpanRecord where
  spanGuid : String
  spanName : String
  joinIds : List TraceJoinId
  oldestMicros : Int
  youngestMicros : Int
  attributes : List KeyValue
  logRecords : List LogRecord
deriving DecidableEq

/-- Counter set carried between reports.  Modelled from the spec: the
`counterSet` type lives in a repository file outside `src/`; per §3 it is "a
small record of monotonically increasing counts (at minimum: spans dropped
due to buffer overflow)". -/
structure CounterSet where
  droppedSpans : Nat
deriving DecidableEq

/-- Bounded span buffer.  Modelled from the spec: the `spansBuffer` type
lives in a repository file outside `src/`; per §4.1 it is an ordered,
capacity-bounded sequence with append-only insertion, reject-new overflow. -/
structure SpansBuffer where
  spans : List RawSpan
  maxBufferSize : Nat
deriving DecidableEq

/-- Modelled from the spec (§4.1), source file outside `src/`:
`add(batch)` "appends as many records as fit under the capacity bound and
returns the count that did not fit (dropped)". -/
def SpansBuffer.addSpans (b : SpansBuffer) (batch : List RawSpan) :
    SpansBuffer × Nat :=
  let room := b.maxBufferSize - b.spans.length
  ({ b with spans := b.spans ++ batch.take room }, (batch.drop room).length)

/-- Modelled from the spec (§4.1), source file outside `src/`:
`reset()` "clears the buffer" (capacity is kept). -/
def SpansBuffer.reset (b : SpansBuffer) : SpansBuffer :=
  { b with spans := [] }

/-- Recorder state: the mutable fields of `Recorder` guarded by its lock,
plus the immutable runtime identity (`attributes`, `startTime`) used when
building the report envelope. -/
structure RecorderState where
  attributes : List (String × String)
  startTime : Int
  reportOldest : Int
  reportYoungest : Int
  buffer : SpansBuffer
  counters : CounterSet
  lastReportAttempt : Int
  maxReportingPeriod : Int
  reportInFlight : Bool
  disabled : Bool
deriving DecidableEq

/-- Wire `lightstep_thrift.Runtime` (built by `thriftRuntime`). -/
structure Runtime where
  startMicros : Int
  attrs : List (String × String)
deriving DecidableEq

/-- Wire `lightstep_thrift.ReportRequest` envelope. -/
structure ReportRequest where
  oldestMicros : Int
  youngestMicros : Int
  runtime : Runtime
  spanRecords : List SpanRecord
  counters : CounterSet
deriving DecidableEq

/-- A backend command (`lightstep_thrift.Command`): only the `Disable`
field is read by the recorder. -/
structure Command where
  disable : Option Bool
deriving DecidableEq

/-- Wire `lightstep_thrift.ReportResponse`: per-record errors and commands. -/
structure ReportResponse where
  errors : List String
  commands : List Command
deriving DecidableEq

/-- Encoding of one log entry (`Flush`, the inner loop over `raw.Logs`):
the event is truncated to the first `maxLogMessageLen - 1` bytes plus the
ellipsis when it is longer than `maxLogMessageLen` bytes; the payload, when
present, is the truncator's string (error substitution happens inside the
truncator model, see `LogData.payload`). -/
def encodeLog (maxLogMessageLen : Nat) (log : LogData) : LogRecord :=
  let event : List UInt8 :=
    if log.event.length > 0 then
      if log.event.length > maxLogMessageLen then
        log.event.take (maxLogMessageLen - 1) ++ ellipsis
      else
        log.event
    else []
  { timestampMicros := goMicros log.timestamp
    stableName := event
    payloadJson := log.payload }

/-- Encoding of one raw span into a wire `SpanRecord` (`Flush`, the loop
over `rawSpans`).  Note the tag classification calls
`strings.HasPrefix("join:", key)` exactly as the source does, i.e. with
`"join:"` as the string being tested and `key` as the prefix. -/
def encodeSpan (maxLogMessageLen : Nat) (raw : RawSpan) : SpanRecord :=
  let joinTags := raw.tags.filter (fun kv => goHasPre "join:" kv.1)
  let attrTags := raw.tags.filter (fun kv => !goHasPre "join:" kv.1)
  let joinIds0 := joinTags.map (fun kv => TraceJoinId.mk kv.1 kv.2)
  let attributes0 := attrTags.map (fun kv => KeyValue.mk kv.1 kv.2)
  let logs := raw.logs.map (encodeLog maxLogMessageLen)
  let joinIds := joinIds0 ++ [⟨TraceGUIDKey, toString raw.traceID⟩]
  let attributes :=
    if raw.parentSpanID ≠ 0 then
      attributes0 ++ [⟨ParentSpanGUIDKey, toString raw.parentSpanID⟩]
    else attributes0
  { spanGuid := toString raw.spanID
    spanName := raw.operation
    joinIds := joinIds
    oldestMicros := goMicros raw.start
    youngestMicros := goMicros (raw.start + raw.duration)
    attributes := attributes
    logRecords := logs }

/-- `thriftRuntime`: the runtime block of the envelope. -/
def thriftRuntime (st : RecorderState) : Runtime :=
  { startMicros := goMicros st.startTime, attrs := st.attributes }

/-- `RecordSpan`: no-op when disabled, otherwise append to the buffer and
add the overflow count to `counters.droppedSpans`. -/
def RecordSpan (st : RecorderState) (raw : RawSpan) : RecorderState :=
  if st.disabled then st
  else
    let r := st.buffer.addSpans [raw]
    { st with buffer := r.1
              counters := ⟨st.counters.droppedSpans + r.2⟩ }

/-- `Disable`: idempotent; clears the buffer and sets `disabled`. -/
def Disable (st : RecorderState) : RecorderState :=
  if st.disabled then st
  else { st with buffer := st.buffer.reset, disabled := true }

/-- The state after `Flush` stamps `lastReportAttempt` and
`reportYoungest` with `now` (lines 233-235). -/
def flushStamp (st : RecorderState) (now : Int) : RecorderState :=
  { st with lastReportAttempt := now, reportYoungest := now }

/-- The report envelope `Flush` builds from the stamped state and the
drained spans (lines 237-307). -/
def buildReport (st : RecorderState) (maxLogMessageLen : Nat)
    (rawSpans : List RawSpan) : ReportRequest :=
  { oldestMicros := goMicros st.reportOldest
    youngestMicros := goMicros st.reportYoungest
    runtime := thriftRuntime st
    spanRecords := rawSpans.map (encodeSpan maxLogMessageLen)
    counters := st.counters }

/-- The locked first half of `Flush` (lines 220-316): `none` when the
flush aborts (disabled, or a report already in flight); otherwise the state
at the moment the lock is released — buffer reset, in-flight set — together
with the request and the drained batch. -/
def flushBegin (st : RecorderState) (now : Int) (maxLogMessageLen : Nat) :
    Option (RecorderState × ReportRequest × List RawSpan) :=
  if st.disabled then none
  else if st.reportInFlight then none
  else
    let st1 := flushStamp st now
    let rawSpans := st1.buffer.spans
    let req := buildReport st1 maxLogMessageLen rawSpans
    some ({ st1 with buffer := st1.buffer.reset, reportInFlight := true },
          req, rawSpans)

/-- Command processing after a successful report (lines 350-354): each
command whose `Disable` field is a true flag invokes `Disable`. -/
def processCommands (cmds : List Command) (st : RecorderState) : RecorderState :=
  cmds.foldl (fun s c => if c.disable = some true then Disable s else s) st

/-- The second half of `Flush`, after the RPC returns (lines 331-355):
clear in-flight; on error re-add the drained batch (overflow added to the
dropped counter) and return; on success reset the window to `now` (the
timestamp captured at the start of this same `Flush`), zero the counters,
and process the response's commands. -/
def flushFinish (st : RecorderState) (batch : List RawSpan) (now : Int)
    (result : Except Unit ReportResponse) : RecorderState :=
  let st1 := { st with reportInFlight := false }
  match result with
  | .error _ =>
      let r := st1.buffer.addSpans batch
      { st1 with buffer := r.1
                 counters := ⟨st1.counters.droppedSpans + r.2⟩ }
  | .ok resp =>
      processCommands resp.commands
        { st1 with reportOldest := now, reportYoungest := now,
                   counters := ⟨0⟩ }

/-- `Flush`, single-threaded: the RPC `rpc` abstracts
`r.backend.Report(r.auth, req)`, returning either a transport error or a
response.  `now` is the single clock reading the code takes (line 233). -/
def Flush (st : RecorderState) (now : Int) (maxLogMessageLen : Nat)
    (rpc : ReportRequest → Except Unit ReportResponse) : RecorderState :=
  match flushBegin st now maxLogMessageLen with
  | none => st
  | some (st2, req, batch) => flushFinish st2 batch now (rpc req)

/-- `Flush` with both clock instants made explicit: `tStart` is the moment
`Flush` reads the clock (line 233) and `tDone` the moment the flush
completes (after the RPC).  The code reads the clock exactly once, at the
start, so `tDone` cannot influence the result; carrying it as a parameter
lets claims that speak about the completion time be stated. -/
def FlushTimed (st : RecorderState) (tStart tDone : Int)
    (maxLogMessageLen : Nat)
    (rpc : ReportRequest → Except Unit ReportResponse) : RecorderState :=
  Flush st tStart maxLogMessageLen rpc

/-- `shouldFlush` (lines 396-410): flush on timeout or on a more than
half-full buffer. -/
def shouldFlush (st : RecorderState) (now : Int) : Bool :=
  if now + minReportingPeriod - st.lastReportAttempt > st.maxReportingPeriod then
    true
  else if st.buffer.spans.length > st.buffer.maxBufferSize / 2 then
    true
  else false

/-- `Disable` always leaves the recorder disabled. -/
theorem Disable_disabled (st : RecorderState) : (Disable st).disabled = true := by
  unfold Disable
  split <;> simp_all

/-- `Disable` touches only the buffer and the disabled flag. -/
theorem Disable_fields (st : RecorderState) :
    (Disable st).reportInFlight = st.reportInFlight ∧
    (Disable st).counters = st.counters ∧
    (Disable st).reportOldest = st.reportOldest ∧
    (Disable st).reportYoungest = st.reportYoungest ∧
    (Disable st).lastReportAttempt = st.lastReportAttempt := by
  unfold Disable
  split <;> simp

/-- Command processing touches only the buffer and the disabled flag. -/
theorem processCommands_fields (cmds : List Command) (st : RecorderState) :
    (processCommands cmds st).reportInFlight = st.reportInFlight ∧
    (processCommands cmds st).counters = st.counters ∧
    (processCommands cmds st).reportOldest = st.reportOldest ∧
    (processCommands cmds st).reportYoungest = st.reportYoungest ∧
    (processCommands cmds st).lastReportAttempt = st.lastReportAttempt := by
  induction cmds generalizing st with
  | nil => simp [processCommands]
  | cons c cs ih =>
    have hstep :
        ((if c.disable = some true then Disable st else st)).reportInFlight
          = st.reportInFlight ∧
        ((if c.disable = some true then Disable st else st)).counters
          = st.counters ∧
        ((if c.disable = some true then Disable st else st)).reportOldest
          = st.reportOldest ∧
        ((if c.disable = some true then Disable st else st)).reportYoungest
          = st.reportYoungest ∧
        ((if c.disable = some true then Disable st else st)).lastReportAttempt
          = st.lastReportAttempt := by
      split
      · exact Disable_fields st
      · exact ⟨rfl, rfl, rfl, rfl, rfl⟩
    have hih := ih (if c.disable = some true then Disable st else st)
    simp only [processCommands, List.foldl_cons] at hih ⊢
    exact ⟨hih.1.trans hstep.1, hih.2.1.trans hstep.2.1,
      hih.2.2.1.trans hstep.2.2.1, hih.2.2.2.1.trans hstep.2.2.2.1,
      hih.2.2.2.2.trans hstep.2.2.2.2⟩

/-- A disabled recorder stays disabled through command processing. -/
theorem processCommands_disabled_mono (cmds : List Command) (st : RecorderState)
    (h : st.disabled = true) : (processCommands cmds st).disabled = true := by
  induction cmds generalizing st with
  | nil => exact h
  | cons c cs ih =>
    simp only [processCommands, List.foldl_cons] at ih ⊢
    apply ih
    split
    · exact Disable_disabled st
    · exact h

/-- A command carrying a true disable flag leaves the recorder disabled. -/
theorem processCommands_disabled_of_mem (cmds : List Command) (st : RecorderState)
    (h : ∃ c ∈ cmds, c.disable = some true) :
    (processCommands cmds st).disabled = true := by
  induction cmds generalizing st with
  | nil => simp at h
  | cons c cs ih =>
    simp only [processCommands, List.foldl_cons] at ih ⊢
    rcases h with ⟨d, hd, hflag⟩
    rcases List.mem_cons.mp hd with h1 | h1
    · subst h1
      have : (if d.disable = some true then Disable st else st).disabled = true := by
        rw [if_pos hflag]
        exact Disable_disabled st
      exact processCommands_disabled_mono cs _ this
    · exact ih _ ⟨d, h1, hflag⟩

/-- Commands with no true disable flag leave the state untouched. -/
theorem processCommands_id_of_none (cmds : List Command) (st : RecorderState)
    (h : ∀ c ∈ cmds, c.disable ≠ some true) : processCommands cmds st = st := by
  induction cmds generalizing st with
  | nil => rfl
  | cons c cs ih =>
    simp only [processCommands, List.foldl_cons] at ih ⊢
    rw [if_neg (h c (List.mem_cons_self c cs))]
    exact ih _ (fun d hd => h d (List.mem_cons_of_mem c hd))

/-- A `Flush` that reaches the RPC and hits a transport error: in-flight
cleared, batch re-added to the freshly reset buffer with overflow counted,
window's oldest untouched, youngest and `lastReportAttempt` left at the
attempt timestamp. -/
theorem Flush_error_eq (st : RecorderState) (now : Int) (m : Nat)
    (rpc : ReportRequest → Except Unit ReportResponse)
    (h1 : st.disabled = false) (h2 : st.reportInFlight = false)
    (herr : ∀ q, rpc q = Except.error ()) :
    Flush st now m rpc =
      { st with lastReportAttempt := now, reportYoungest := now,
                reportInFlight := false,
                buffer := ⟨st.buffer.spans.take st.buffer.maxBufferSize,
                           st.buffer.maxBufferSize⟩,
                counters := ⟨st.counters.droppedSpans
                  + (st.buffer.spans.drop st.buffer.maxBufferSize).length⟩ } := by
  unfold Flush flushBegin
  rw [if_neg (by simp [h1]), if_neg (by simp [h2])]
  dsimp only
  rw [herr]
  unfold flushFinish flushStamp SpansBuffer.addSpans SpansBuffer.reset
  simp

/-- A `Flush` that reaches the RPC and succeeds: window reset to the
timestamp captured at the start of the flush, counters zeroed, in-flight
cleared, buffer left reset, then the response's commands are processed. -/
theorem Flush_ok_eq (st : RecorderState) (now : Int) (m : Nat)
    (rpc : ReportRequest → Except Unit ReportResponse) (resp : ReportResponse)
    (h1 : st.disabled = false) (h2 : st.reportInFlight = false)
    (hok : ∀ q, rpc q = Except.ok resp) :
    Flush st now m rpc =
      processCommands resp.commands
        { st with lastReportAttempt := now,
                  reportOldest := now, reportYoungest := now,
                  reportInFlight := false,
                  buffer := ⟨[], st.buffer.maxBufferSize⟩,
                  counters := ⟨0⟩ } := by
  unfold Flush flushBegin
  rw [if_neg (by simp [h1]), if_neg (by simp [h2])]
  dsimp only
  rw [hok]
  unfold flushFinish flushStamp SpansBuffer.reset
  simp

/-- C1: the tag classification in `Flush` calls `strings.HasPrefix` with its
arguments swapped, so a tag whose key begins with "join:" (here
"join:user_id") is emitted as an ordinary attribute and not as a trace join
id, while a tag whose key is a prefix of "join:" (here "jo") is emitted as a
join id.  This contradicts the claim that "join:"-prefixed keys become join
identifiers. -/
theorem C1_join_tag_misrouted :
    (encodeSpan defaultMaxLogMessageLen
        ⟨7, 8, 0, "op", 0, 0, [("join:user_id", "42")], []⟩).attributes
      = [⟨"join:user_id", "42"⟩] ∧
    (encodeSpan defaultMaxLogMessageLen
        ⟨7, 8, 0, "op", 0, 0, [("join:user_id", "42")], []⟩).joinIds
      = [⟨TraceGUIDKey, "7"⟩] ∧
    (encodeSpan defaultMaxLogMessageLen
        ⟨9, 8, 0, "op", 0, 0, [("jo", "x")], []⟩).joinIds
      = [⟨"jo", "x"⟩, ⟨TraceGUIDKey, "9"⟩] := by
  refine ⟨?_, ?_, ?_⟩ <;> decide

/-- An event longer than the cap is encoded as `cap - 1` bytes plus the
3-byte ellipsis, `cap + 2` bytes in total. -/
theorem encodeLog_stableName_long (m : Nat) (log : LogData) (h1 : 1 ≤ m)
    (h2 : m < log.event.length) :
    (encodeLog m log).stableName.length = m + 2 := by
  have hpos : 0 < log.event.length := by omega
  simp [encodeLog, hpos, h2, ellipsis]
  omega

/-- An event within the cap is emitted unchanged. -/
theorem encodeLog_stableName_short (m : Nat) (log : LogData)
    (h : log.event.length ≤ m) : (encodeLog m log).stableName = log.event := by
  unfold encodeLog
  by_cases hpos : 0 < log.event.length
  · have hnot : ¬ log.event.length > m := by omega
    simp [hpos, hnot]
  · have h0 : log.event.length = 0 := by omega
    have hnil : log.event = [] := List.eq_nil_of_length_eq_zero h0
    simp [hpos, hnil]

/-- C2: with the default 1024-byte cap, a 1025-byte event is encoded as its
first 1023 bytes plus the 3-byte UTF-8 ellipsis — 1026 bytes in total, not
"exactly the maximum length" of 1024 bytes; events within the cap are
emitted unchanged. -/
theorem C2_event_truncation_length :
    ((encodeLog defaultMaxLogMessageLen
        ⟨0, List.replicate 1025 97, none⟩).stableName).length = 1026 ∧
    (encodeLog defaultMaxLogMessageLen
        ⟨0, List.replicate 1024 97, none⟩).stableName
      = List.replicate 1024 97 ∧
    defaultMaxLogMessageLen = 1024 := by
  refine ⟨?_, ?_, rfl⟩
  · have h := encodeLog_stableName_long defaultMaxLogMessageLen
      ⟨0, List.replicate 1025 97, none⟩
      (by norm_num [defaultMaxLogMessageLen])
      (by norm_num [defaultMaxLogMessageLen])
    rw [h]
    norm_num [defaultMaxLogMessageLen]
  · exact encodeLog_stableName_short _ _ (by norm_num [defaultMaxLogMessageLen])

/-- C5: `Disable` is idempotent and one-directional — a second call is the
identity, the result is disabled with a cleared buffer (clearing happens on
the call that transitions from enabled), and on a disabled recorder both
`RecordSpan` and `Flush` leave the state unchanged (and `Flush` sends no
report, its result not depending on the backend). -/
theorem C5_disable_idempotent (st : RecorderState) (raw : RawSpan) (now : Int)
    (m : Nat) (rpc : ReportRequest → Except Unit ReportResponse) :
    Disable (Disable st) = Disable st ∧
    (Disable st).disabled = true ∧
    (st.disabled = false → (Disable st).buffer.spans = []) ∧
    RecordSpan (Disable st) raw = Disable st ∧
    Flush (Disable st) now m rpc = Disable st := by
  have hd : (Disable st).disabled = true := Disable_disabled st
  refine ⟨?_, hd, ?_, ?_, ?_⟩
  · have hfix : ∀ s : RecorderState, s.disabled = true → Disable s = s := by
      intro s hs
      unfold Disable
      rw [if_pos hs]
    exact hfix _ hd
  · intro h
    unfold Disable
    rw [if_neg (by simp [h])]
    rfl
  · unfold RecordSpan
    rw [if_pos hd]
  · unfold Flush flushBegin
    rw [if_pos hd]

/-- C5 witness: concrete instance discharging the enabled-state hypothesis. -/
theorem C5_disable_idempotent_witness :
    (Disable ⟨[], 0, 0, 0, ⟨[], 8⟩, ⟨0⟩, 0, 0, false, false⟩).buffer.spans = [] :=
  (C5_disable_idempotent ⟨[], 0, 0, 0, ⟨[], 8⟩, ⟨0⟩, 0, 0, false, false⟩
    ⟨1, 2, 0, "op", 0, 0, [], []⟩ 0 1024 (fun _ => Except.error ())).2.2.1 rfl

/-- C3 counterexample: start from a recorder whose window's youngest
timestamp is 0, flush at time 100 against a failing backend — afterwards
`reportYoungest` is 100, the flush-attempt time, not its pre-flush value 0,
so the report window is not "unchanged from before the flush attempt". -/
theorem C3_window_not_restored_cex :
    (Flush ⟨[], 0, 0, 0, ⟨[⟨1, 2, 0, "op", 0, 0, [], []⟩], 8⟩, ⟨0⟩, 0,
        defaultMaxReportingPeriod, false, false⟩ 100 1024
        (fun _ => Except.error ())).reportYoungest = 100 ∧
    (⟨[], 0, 0, 0, ⟨[⟨1, 2, 0, "op", 0, 0, [], []⟩], 8⟩, ⟨0⟩, 0,
        defaultMaxReportingPeriod, false, false⟩ :
      RecorderState).reportYoungest = 0 ∧
    (100 : Int) ≠ 0 := by
  refine ⟨?_, rfl, by norm_num⟩
  rw [Flush_error_eq _ _ _ _ rfl rfl (fun _ => rfl)]

/-- C3 (amended): on a transport error the drained batch is re-added to the
buffer with any overflow added to the dropped-spans counter, in-flight is
cleared, and `reportOldest` and the counters are otherwise unchanged; but
`reportYoungest` (and `lastReportAttempt`) are left holding the timestamp
stamped at the start of the flush attempt, not their pre-flush values. -/
theorem C3_error_recovery (st : RecorderState) (now : Int) (m : Nat)
    (rpc : ReportRequest → Except Unit ReportResponse)
    (h1 : st.disabled = false) (h2 : st.reportInFlight = false)
    (herr : ∀ q, rpc q = Except.error ()) :
    (Flush st now m rpc).reportInFlight = false ∧
    (Flush st now m rpc).reportOldest = st.reportOldest ∧
    (Flush st now m rpc).reportYoungest = now ∧
    (Flush st now m rpc).lastReportAttempt = now ∧
    (Flush st now m rpc).buffer.spans
      = st.buffer.spans.take st.buffer.maxBufferSize ∧
    (Flush st now m rpc).counters.droppedSpans
      = st.counters.droppedSpans
        + (st.buffer.spans.drop st.buffer.maxBufferSize).length ∧
    (Flush st now m rpc).disabled = false := by
  rw [Flush_error_eq st now m rpc h1 h2 herr]
  exact ⟨rfl, rfl, rfl, rfl, rfl, rfl, h1⟩

/-- C3 witness: concrete instance discharging the hypotheses. -/
theorem C3_error_recovery_witness :
    (Flush ⟨[], 0, 0, 0, ⟨[⟨1, 2, 0, "op", 0, 0, [], []⟩], 8⟩, ⟨0⟩, 0,
        defaultMaxReportingPeriod, false, false⟩ 100 1024
        (fun _ => Except.error ())).buffer.spans
      = ([⟨1, 2, 0, "op", 0, 0, [], []⟩] : List RawSpan).take 8 :=
  (C3_error_recovery ⟨[], 0, 0, 0, ⟨[⟨1, 2, 0, "op", 0, 0, [], []⟩], 8⟩, ⟨0⟩,
    0, defaultMaxReportingPeriod, false, false⟩ 100 1024
    (fun _ => Except.error ()) rfl rfl (fun _ => rfl)).2.2.2.2.1

/-- C4 counterexample: flush starting at time 1000 and completing at time
2000 against a succeeding backend leaves the window at 1000 — the clock
reading taken at the start of the flush — not at the completion time 2000,
so the window's timestamps do not equal the flush completion time. -/
theorem C4_completion_time_cex :
    (FlushTimed ⟨[], 0, 0, 0, ⟨[], 8⟩, ⟨0⟩, 0, defaultMaxReportingPeriod,
        false, false⟩ 1000 2000 1024
        (fun _ => Except.ok ⟨[], []⟩)).reportOldest = 1000 ∧
    (1000 : Int) ≠ 2000 := by
  refine ⟨?_, by norm_num⟩
  rw [FlushTimed, Flush_ok_eq _ _ _ _ ⟨[], []⟩ rfl rfl (fun _ => rfl)]
  rfl

/-- C4 (amended): after a `Flush` whose RPC succeeds, the counter set is
zero and `reportOldest = reportYoungest = lastReportAttempt = now`, where
`now` is the single clock reading the flush takes, at its start — not the
time at which the flush completes. -/
theorem C4_success_reset (st : RecorderState) (now : Int) (m : Nat)
    (rpc : ReportRequest → Except Unit ReportResponse) (resp : ReportResponse)
    (h1 : st.disabled = false) (h2 : st.reportInFlight = false)
    (hok : ∀ q, rpc q = Except.ok resp) :
    (Flush st now m rpc).counters = ⟨0⟩ ∧
    (Flush st now m rpc).reportOldest = now ∧
    (Flush st now m rpc).reportYoungest = now ∧
    (Flush st now m rpc).lastReportAttempt = now := by
  rw [Flush_ok_eq st now m rpc resp h1 h2 hok]
  obtain ⟨-, hc, ho, hy, hl⟩ := processCommands_fields resp.commands _
  exact ⟨hc, ho, hy, hl⟩

/-- C4 witness: concrete instance discharging the hypotheses. -/
theorem C4_success_reset_witness :
    (Flush ⟨[], 0, 0, 0, ⟨[], 8⟩, ⟨0⟩, 0, defaultMaxReportingPeriod,
        false, false⟩ 5 1024 (fun _ => Except.ok ⟨[], []⟩)).counters = ⟨0⟩ :=
  (C4_success_reset ⟨[], 0, 0, 0, ⟨[], 8⟩, ⟨0⟩, 0, defaultMaxReportingPeriod,
    false, false⟩ 5 1024 (fun _ => Except.ok ⟨[], []⟩) ⟨[], []⟩
    rfl rfl (fun _ => rfl)).1

/-- C6: at most one report is in flight — entering `Flush` with the
in-flight flag set returns the state unchanged (so nothing is drained or
stamped and the backend result is irrelevant); whenever the locked first
half of `Flush` hands out a request the flag is set; and the second half
clears the flag on every completion path, error or success. -/
theorem C6_single_inflight (st stB stF : RecorderState) (now : Int) (m : Nat)
    (rpc : ReportRequest → Except Unit ReportResponse)
    (st2 : RecorderState) (req : ReportRequest) (batch : List RawSpan)
    (res : Except Unit ReportResponse) :
    (st.reportInFlight = true → Flush st now m rpc = st) ∧
    (flushBegin stB now m = some (st2, req, batch) →
      st2.reportInFlight = true) ∧
    (flushFinish stF batch now res).reportInFlight = false := by
  refine ⟨?_, ?_, ?_⟩
  · intro h
    unfold Flush flushBegin
    by_cases hd : st.disabled
    · rw [if_pos hd]
    · rw [if_neg hd, if_pos h]
  · intro h
    unfold flushBegin at h
    by_cases hd : stB.disabled
    · rw [if_pos hd] at h
      exact absurd h (by simp)
    · rw [if_neg hd] at h
      by_cases hf : stB.reportInFlight
      · rw [if_pos hf] at h
        exact absurd h (by simp)
      · rw [if_neg hf] at h
        simp only [Option.some.injEq, Prod.mk.injEq] at h
        rw [← h.1]
  · unfold flushFinish
    cases res with
    | error e => rfl
    | ok resp => exact (processCommands_fields resp.commands _).1

/-- C6 witness: concrete instance discharging the hypotheses. -/
theorem C6_single_inflight_witness :
    Flush ⟨[], 0, 0, 0, ⟨[], 8⟩, ⟨0⟩, 0, 0, true, false⟩ 0 1024
        (fun _ => Except.error ())
      = ⟨[], 0, 0, 0, ⟨[], 8⟩, ⟨0⟩, 0, 0, true, false⟩ :=
  (C6_single_inflight ⟨[], 0, 0, 0, ⟨[], 8⟩, ⟨0⟩, 0, 0, true, false⟩
    ⟨[], 0, 0, 0, ⟨[], 8⟩, ⟨0⟩, 0, 0, false, false⟩
    ⟨[], 0, 0, 0, ⟨[], 8⟩, ⟨0⟩, 0, 0, true, false⟩ 0 1024
    (fun _ => Except.error ())
    ⟨[], 0, 0, 0, ⟨[], 8⟩, ⟨0⟩, 0, 0, true, false⟩
    ⟨0, 0, ⟨0, []⟩, [], ⟨0⟩⟩ [] (Except.error ())).1 rfl

/-- C7: `shouldFlush` is true exactly when the timeout condition
`now + minReportingPeriod - lastReportAttempt > maxReportingPeriod` holds or
the buffered span count strictly exceeds half the buffer capacity
(`2 * length > capacity`, which over the integers is exactly
`length > capacity / 2`). -/
theorem C7_shouldFlush_iff (st : RecorderState) (now : Int) :
    shouldFlush st now = true ↔
      (now + minReportingPeriod - st.lastReportAttempt > st.maxReportingPeriod ∨
       2 * st.buffer.spans.length > st.buffer.maxBufferSize) := by
  have hhalf : (st.buffer.spans.length > st.buffer.maxBufferSize / 2) ↔
      2 * st.buffer.spans.length > st.buffer.maxBufferSize := by
    omega
  unfold shouldFlush
  by_cases ha : now + minReportingPeriod - st.lastReportAttempt > st.maxReportingPeriod
  · simp [ha]
  · by_cases hb : st.buffer.spans.length > st.buffer.maxBufferSize / 2
    · simp [ha, hb, hhalf.mp hb]
    · simp [ha, hb]
      omega

/-- The attribute list of an encoded span: the tags the (swapped)
prefix test classifies as non-join, then the parent attribute when the
parent span id is nonzero. -/
theorem encodeSpan_attributes (m : Nat) (raw : RawSpan) :
    (encodeSpan m raw).attributes
      = (raw.tags.filter (fun kv => !goHasPre "join:" kv.1)).map
          (fun kv => KeyValue.mk kv.1 kv.2)
        ++ (if raw.parentSpanID ≠ 0 then
              [KeyValue.mk ParentSpanGUIDKey (toString raw.parentSpanID)]
            else []) := by
  unfold encodeSpan
  by_cases h : raw.parentSpanID ≠ 0 <;> simp [h]

/-- The join-id list of an encoded span: the tags the (swapped) prefix
test classifies as join tags, then the trace-GUID join id. -/
theorem encodeSpan_joinIds (m : Nat) (raw : RawSpan) :
    (encodeSpan m raw).joinIds
      = (raw.tags.filter (fun kv => goHasPre "join:" kv.1)).map
          (fun kv => TraceJoinId.mk kv.1 kv.2)
        ++ [TraceJoinId.mk TraceGUIDKey (toString raw.traceID)] := by
  unfold encodeSpan
  simp

/-- C8 counterexample: a span with parent span id 0 but carrying a user tag
whose key is the parent-span-GUID key is encoded with a parent-span-GUID
attribute present, so "a parent-span-GUID attribute is present iff the
parent span id is nonzero" fails as stated. -/
theorem C8_parent_attr_cex :
    KeyValue.mk ParentSpanGUIDKey "7"
      ∈ (encodeSpan 1024
          (⟨1, 2, 0, "op", 0, 0, [("parent_span_guid", "7")], []⟩ :
            RawSpan)).attributes ∧
    (⟨1, 2, 0, "op", 0, 0, [("parent_span_guid", "7")], []⟩ :
      RawSpan).parentSpanID = 0 := by
  refine ⟨?_, rfl⟩
  decide

/-- C8 (amended): `OldestMicros` is the start in microseconds,
`YoungestMicros` is start plus duration in microseconds, a trace-GUID join
id carrying the trace id is always appended, and the parent-span-GUID
attribute is appended exactly when the parent span id is nonzero — so for
spans whose own tags do not use the parent-span-GUID key, such an attribute
is present iff the parent span id is nonzero. -/
theorem C8_span_record_fields (m : Nat) (raw : RawSpan) :
    (encodeSpan m raw).oldestMicros = goMicros raw.start ∧
    (encodeSpan m raw).youngestMicros = goMicros (raw.start + raw.duration) ∧
    TraceJoinId.mk TraceGUIDKey (toString raw.traceID)
      ∈ (encodeSpan m raw).joinIds ∧
    (raw.parentSpanID ≠ 0 →
      KeyValue.mk ParentSpanGUIDKey (toString raw.parentSpanID)
        ∈ (encodeSpan m raw).attributes) ∧
    ((∀ kv ∈ raw.tags, kv.1 ≠ ParentSpanGUIDKey) →
      ((∃ kv ∈ (encodeSpan m raw).attributes, kv.key = ParentSpanGUIDKey)
        ↔ raw.parentSpanID ≠ 0)) := by
  refine ⟨rfl, rfl, ?_, ?_, ?_⟩
  · rw [encodeSpan_joinIds]
    exact List.mem_append_right _ (List.mem_singleton_self _)
  · intro h
    rw [encodeSpan_attributes, if_pos h]
    exact List.mem_append_right _ (List.mem_singleton_self _)
  · intro htags
    constructor
    · rintro ⟨kv, hmem, hkey⟩
      rw [encodeSpan_attributes] at hmem
      rcases List.mem_append.mp hmem with hA | hB
      · rcases List.mem_map.mp hA with ⟨t, ht, hmk⟩
        have ht' : t ∈ raw.tags := (List.mem_filter.mp ht).1
        have hkey' : t.1 = ParentSpanGUIDKey := by
          rw [← hmk] at hkey
          exact hkey
        exact absurd hkey' (htags t ht')
      · by_contra hp
        rw [if_neg (show ¬raw.parentSpanID ≠ 0 by simp [hp])] at hB
        simp at hB
    · intro h
      refine ⟨KeyValue.mk ParentSpanGUIDKey (toString raw.parentSpanID), ?_, rfl⟩
      rw [encodeSpan_attributes, if_pos h]
      exact List.mem_append_right _ (List.mem_singleton_self _)

/-- C8 witness: concrete instance discharging the no-reserved-tag
hypothesis. -/
theorem C8_span_record_fields_witness :
    (∃ kv ∈ (encodeSpan 1024
        (⟨1, 2, 3, "op", 5, 6, [], []⟩ : RawSpan)).attributes,
      kv.key = ParentSpanGUIDKey) ↔
    (⟨1, 2, 3, "op", 5, 6, [], []⟩ : RawSpan).parentSpanID ≠ 0 :=
  (C8_span_record_fields 1024 ⟨1, 2, 3, "op", 5, 6, [], []⟩).2.2.2.2
    (by simp)

/-- C9: when the successful response carries a command with a true disable
flag, the recorder ends up disabled and a subsequent `RecordSpan` is a
no-op; when no command carries a true disable flag the flush behaves
exactly as if the response carried no commands at all. -/
theorem C9_disable_command (st : RecorderState) (raw : RawSpan) (now : Int)
    (m : Nat) (rpc rpc0 : ReportRequest → Except Unit ReportResponse)
    (resp : ReportResponse)
    (h1 : st.disabled = false) (h2 : st.reportInFlight = false)
    (hok : ∀ q, rpc q = Except.ok resp)
    (h0 : ∀ q, rpc0 q = Except.ok ⟨resp.errors, []⟩) :
    ((∃ c ∈ resp.commands, c.disable = some true) →
      (Flush st now m rpc).disabled = true ∧
      RecordSpan (Flush st now m rpc) raw = Flush st now m rpc) ∧
    ((∀ c ∈ resp.commands, c.disable ≠ some true) →
      Flush st now m rpc = Flush st now m rpc0) := by
  rw [Flush_ok_eq st now m rpc resp h1 h2 hok,
      Flush_ok_eq st now m rpc0 ⟨resp.errors, []⟩ h1 h2 h0]
  constructor
  · intro hex
    have hd := processCommands_disabled_of_mem resp.commands
      { st with lastReportAttempt := now,
                reportOldest := now, reportYoungest := now,
                reportInFlight := false,
                buffer := ⟨[], st.buffer.maxBufferSize⟩,
                counters := ⟨0⟩ } hex
    refine ⟨hd, ?_⟩
    unfold RecordSpan
    rw [if_pos hd]
  · intro hnone
    rw [processCommands_id_of_none resp.commands _ hnone]
    rfl

/-- C9 witness: concrete instance discharging the hypotheses. -/
theorem C9_disable_command_witness :
    (Flush ⟨[], 0, 0, 0, ⟨[], 8⟩, ⟨0⟩, 0, defaultMaxReportingPeriod,
        false, false⟩ 0 1024
        (fun _ => Except.ok ⟨[], [⟨some true⟩]⟩)).disabled = true :=
  ((C9_disable_command ⟨[], 0, 0, 0, ⟨[], 8⟩, ⟨0⟩, 0,
      defaultMaxReportingPeriod, false, false⟩ ⟨1, 2, 0, "op", 0, 0, [], []⟩
      0 1024 (fun _ => Except.ok ⟨[], [⟨some true⟩]⟩)
      (fun _ => Except.ok ⟨[], []⟩) ⟨[], [⟨some true⟩]⟩
      rfl rfl (fun _ => rfl) (fun _ => rfl)).1
    ⟨⟨some true⟩, List.mem_singleton_self _, rfl⟩).1

/-- C10: after the RPC, a successful completion overwrites the whole
counter set with a fresh zero value — any dropped-span counts added by
`RecordSpan` calls interleaved between the buffer drain and the RPC's
completion are discarded — whereas a failed completion keeps those counts
and adds the reinsertion overflow on top. -/
theorem C10_counters_overwritten (st : RecorderState) (now : Int) (m : Nat)
    (st2 : RecorderState) (req : ReportRequest) (batch extras : List RawSpan)
    (resp : ReportResponse)
    (hbegin : flushBegin st now m = some (st2, req, batch)) :
    (flushFinish (extras.foldl RecordSpan st2) batch now
        (Except.ok resp)).counters = ⟨0⟩ ∧
    (flushFinish (extras.foldl RecordSpan st2) batch now
        (Except.error ())).counters.droppedSpans
      = (extras.foldl RecordSpan st2).counters.droppedSpans
        + (batch.drop ((extras.foldl RecordSpan st2).buffer.maxBufferSize
            - (extras.foldl RecordSpan st2).buffer.spans.length)).length ∧
    (extras.foldl RecordSpan st2).counters.droppedSpans
      ≤ (flushFinish (extras.foldl RecordSpan st2) batch now
          (Except.error ())).counters.droppedSpans := by
  refine ⟨?_, ?_, ?_⟩
  · unfold flushFinish
    exact (processCommands_fields resp.commands _).2.1
  · rfl
  · exact Nat.le_add_right _ _

/-- C10 witness: capacity-1 recorder, one drained span, two spans recorded
during the RPC (the second overflows), success discards the dropped count. -/
theorem C10_counters_overwritten_witness :
    (flushFinish
        (([⟨3, 4, 0, "b", 0, 0, [], []⟩, ⟨5, 6, 0, "c", 0, 0, [], []⟩] :
            List RawSpan).foldl RecordSpan
          ⟨[], 0, 0, 10, ⟨[], 1⟩, ⟨0⟩, 10, defaultMaxReportingPeriod,
            true, false⟩)
        [⟨1, 2, 0, "op", 0, 0, [], []⟩] 10
        (Except.ok ⟨[], []⟩)).counters = ⟨0⟩ :=
  (C10_counters_overwritten
    ⟨[], 0, 0, 0, ⟨[⟨1, 2, 0, "op", 0, 0, [], []⟩], 1⟩, ⟨0⟩, 0,
      defaultMaxReportingPeriod, false, false⟩ 10 1024
    ⟨[], 0, 0, 10, ⟨[], 1⟩, ⟨0⟩, 10, defaultMaxReportingPeriod, true, false⟩
    ⟨0, 0, ⟨0, []⟩, [⟨"2", "op", [⟨TraceGUIDKey, "1"⟩], 0, 0, [], []⟩], ⟨0⟩⟩
    [⟨1, 2, 0, "op", 0, 0, [], []⟩]
    [⟨3, 4, 0, "b", 0, 0, [], []⟩, ⟨5, 6, 0, "c", 0, 0, [], []⟩]
    ⟨[], []⟩ (by decide)).1

end LightStep
